import Mathlib

/-!
Verification of the Groq Excel AI relay (src/src/main.rs).

The development shallowly embeds the single request handler `chat` of the
Rust program: JSON values are an inductive type, `serde_json::from_str` is
embedded as a fuel-based recursive-descent parser over the character list,
Rust string trimming is `rustTrim`, and the handler itself is the pure
function `chat`, which also returns the list of upstream calls it issues so
that "no upstream call" and "exactly one upstream call" are statable.
The outbound HTTP exchange is abstracted as a value of `UpstreamOutcome`
(transport failure, or a status code together with the result of reading
the response body), which is exactly the information the handler consumes.
-/

namespace GroqRelay

/-- JSON values, mirroring the shape of `serde_json::Value`. Numbers keep
their source lexeme: no claim in this development depends on numeric
values, only on the shape of the parsed document. -/
inductive Json where
  | null
  | bool (b : Bool)
  | num (lex : String)
  | str (s : String)
  | arr (elems : List Json)
  | obj (fields : List (String × Json))

/-- First-match association lookup over the fields of an object. Objects
are built by `setField`, which overwrites an existing key, matching the
last-wins behaviour of the `serde_json` map on duplicate keys. -/
def lookupField : List (String × Json) → String → Option Json
  | [], _ => none
  | (k1, v1) :: fs, k => if k1 = k then some v1 else lookupField fs k

/-- `value[key]` for a string index: the field of an object, and
`Value::Null` whenever the value is not an object or the key is absent,
as in the `Index` impl of `serde_json`. -/
def Json.key (j : Json) (k : String) : Json :=
  match j with
  | .obj fs => (lookupField fs k).getD .null
  | _ => .null

/-- `value[i]` for a numeric index: the element of an array, and
`Value::Null` whenever the value is not an array or the index is out of
range, as in the `Index` impl of `serde_json`. -/
def Json.idx (j : Json) (i : Nat) : Json :=
  match j with
  | .arr xs => xs.getD i .null
  | _ => .null

/-- `Value::as_str`: `Some` exactly on JSON strings. -/
def Json.as_str : Json → Option String
  | .str s => some s
  | _ => none

/-- `Value::is_array`. -/
def Json.is_array : Json → Bool
  | .arr _ => true
  | _ => false

/-- The Unicode White_Space property, which is what `char::is_whitespace`
tests in Rust. -/
def rustWhitespace (c : Char) : Bool :=
  let n := c.toNat
  (9 ≤ n && n ≤ 13) || n = 32 || n = 0x85 || n = 0xA0 || n = 0x1680 ||
    (0x2000 ≤ n && n ≤ 0x200A) || n = 0x2028 || n = 0x2029 || n = 0x202F ||
    n = 0x205F || n = 0x3000

/-- Rust `str::trim`: remove leading and trailing Unicode whitespace. -/
def rustTrim (s : String) : String :=
  String.mk (((s.toList.dropWhile rustWhitespace).reverse.dropWhile rustWhitespace).reverse)

/-- The four JSON whitespace characters skipped between tokens by
`serde_json`. -/
def jsonWs (c : Char) : Bool := c = ' ' || c = '\t' || c = '\n' || c = '\r'

/-- Skip leading JSON whitespace. -/
def skipWs : List Char → List Char
  | [] => []
  | c :: cs => if jsonWs c then skipWs cs else c :: cs

/-- The result of a fallible computation; `PResult Json` is the embedding
of `serde_json::Result<Value>`, with the error collapsed to its message. -/
inductive PResult (α : Type) where
  | ok (val : α)
  | err (msg : String)

/-- Longest prefix of ASCII digits, with the rest of the input. -/
def takeDigits : List Char → List Char × List Char
  | [] => ([], [])
  | c :: cs =>
    if c.isDigit then
      let p := takeDigits cs
      (c :: p.1, p.2)
    else ([], c :: cs)

/-- Optional exponent part of a JSON number, appended to the lexeme. -/
def parseExpPart (lex : List Char) (cs : List Char) : PResult (String × List Char) :=
  match cs with
  | [] => .ok (String.mk lex, [])
  | e :: rest =>
    if e = 'e' ∨ e = 'E' then
      let p := match rest with
        | '+' :: r => ((['+'] : List Char), r)
        | '-' :: r => ((['-'] : List Char), r)
        | _ => (([] : List Char), rest)
      match p.2 with
      | d :: rest2 =>
        if d.isDigit then
          let q := takeDigits rest2
          .ok (String.mk (lex ++ [e] ++ p.1 ++ (d :: q.1)), q.2)
        else .err "invalid number"
      | [] => .err "EOF while parsing a value"
    else .ok (String.mk lex, cs)

/-- Optional fraction part of a JSON number, then the exponent part. -/
def parseFracExp (lex : List Char) (cs : List Char) : PResult (String × List Char) :=
  match cs with
  | '.' :: rest =>
    match rest with
    | d :: rest1 =>
      if d.isDigit then
        let q := takeDigits rest1
        parseExpPart (lex ++ ['.'] ++ (d :: q.1)) q.2
      else .err "invalid number"
    | [] => .err "EOF while parsing a value"
  | _ => parseExpPart lex cs

/-- A JSON number: optional minus sign, integer part with no leading zero,
optional fraction and exponent, as accepted by `serde_json`. -/
def parseNumber (cs : List Char) : PResult (String × List Char) :=
  let p := match cs with
    | '-' :: rest => ((['-'] : List Char), rest)
    | _ => (([] : List Char), cs)
  match p.2 with
  | [] => .err "EOF while parsing a value"
  | c :: rest =>
    if c = '0' then parseFracExp (p.1 ++ ['0']) rest
    else if c.isDigit then
      let q := takeDigits rest
      parseFracExp (p.1 ++ (c :: q.1)) q.2
    else .err "invalid number"

/-- Value of a hexadecimal digit. -/
def hexVal (c : Char) : Option Nat :=
  if '0' ≤ c ∧ c ≤ '9' then some (c.toNat - '0'.toNat)
  else if 'a' ≤ c ∧ c ≤ 'f' then some (c.toNat - 'a'.toNat + 10)
  else if 'A' ≤ c ∧ c ≤ 'F' then some (c.toNat - 'A'.toNat + 10)
  else none

/-- Four hexadecimal digits of a `\u` escape. -/
def parseHex4 : List Char → Option (Nat × List Char)
  | a :: b :: c :: d :: cs =>
    match hexVal a, hexVal b, hexVal c, hexVal d with
    | some x, some y, some z, some w => some (((x * 16 + y) * 16 + z) * 16 + w, cs)
    | _, _, _, _ => none
  | _ => none

/-- Body of a JSON string after the opening quote: plain characters, the
short escapes, and `\u` escapes with surrogate-pair handling, exactly the
cases accepted by `serde_json`. The fuel argument bounds recursion depth;
one unit per consumed character is always sufficient. -/
def parseStringBody (fuel : Nat) (acc : List Char) (cs : List Char) :
    PResult (String × List Char) :=
  match fuel with
  | 0 => .err "recursion limit exceeded"
  | fuel + 1 =>
    match cs with
    | [] => .err "EOF while parsing a string"
    | '"' :: rest => .ok (String.mk acc.reverse, rest)
    | '\\' :: rest =>
      match rest with
      | [] => .err "EOF while parsing a string"
      | e :: rest1 =>
        if e = '"' then parseStringBody fuel ('"' :: acc) rest1
        else if e = '\\' then parseStringBody fuel ('\\' :: acc) rest1
        else if e = '/' then parseStringBody fuel ('/' :: acc) rest1
        else if e = 'b' then parseStringBody fuel (Char.ofNat 8 :: acc) rest1
        else if e = 'f' then parseStringBody fuel (Char.ofNat 12 :: acc) rest1
        else if e = 'n' then parseStringBody fuel ('\n' :: acc) rest1
        else if e = 'r' then parseStringBody fuel (Char.ofNat 13 :: acc) rest1
        else if e = 't' then parseStringBody fuel ('\t' :: acc) rest1
        else if e = 'u' then
          match parseHex4 rest1 with
          | none => .err "invalid unicode escape"
          | some (n, rest2) =>
            if 0xD800 ≤ n ∧ n ≤ 0xDBFF then
              match rest2 with
              | '\\' :: 'u' :: rest3 =>
                match parseHex4 rest3 with
                | some (m, rest4) =>
                  if 0xDC00 ≤ m ∧ m ≤ 0xDFFF then
                    parseStringBody fuel
                      (Char.ofNat (0x10000 + (n - 0xD800) * 0x400 + (m - 0xDC00)) :: acc) rest4
                  else .err "lone leading surrogate in hex escape"
                | none => .err "invalid unicode escape"
              | _ => .err "unexpected end of hex escape"
            else if 0xDC00 ≤ n ∧ n ≤ 0xDFFF then .err "lone trailing surrogate in hex escape"
            else parseStringBody fuel (Char.ofNat n :: acc) rest2
        else .err "invalid escape"
    | c :: rest =>
      if c.toNat < 0x20 then .err "control character in string"
      else parseStringBody fuel (c :: acc) rest

/-- Insert a field into an object under construction: an existing key is
overwritten in place (last wins), as in the `serde_json` map. -/
def setField : List (String × Json) → String → Json → List (String × Json)
  | [], k, v => [(k, v)]
  | (k1, v1) :: fs, k, v => if k1 = k then (k, v) :: fs else (k1, v1) :: setField fs k v

mutual

/-- One JSON value, dispatched on its first character. The fuel bounds the
recursion through nested arrays and objects; `parseJson` supplies more
fuel than any input can consume. -/
def parseValue (fuel : Nat) (cs : List Char) : PResult (Json × List Char) :=
  match fuel with
  | 0 => .err "recursion limit exceeded"
  | fuel + 1 =>
    match cs with
    | [] => .err "EOF while parsing a value"
    | c :: rest =>
      if c = 'n' then
        match rest with
        | 'u' :: 'l' :: 'l' :: rest1 => .ok (.null, rest1)
        | _ => .err "expected ident"
      else if c = 't' then
        match rest with
        | 'r' :: 'u' :: 'e' :: rest1 => .ok (.bool true, rest1)
        | _ => .err "expected ident"
      else if c = 'f' then
        match rest with
        | 'a' :: 'l' :: 's' :: 'e' :: rest1 => .ok (.bool false, rest1)
        | _ => .err "expected ident"
      else if c = '"' then
        match parseStringBody (rest.length + 1) [] rest with
        | .ok (s, rest1) => .ok (.str s, rest1)
        | .err e => .err e
      else if c = '-' ∨ c.isDigit then
        match parseNumber (c :: rest) with
        | .ok (lex, rest1) => .ok (.num lex, rest1)
        | .err e => .err e
      else if c = '[' then
        match skipWs rest with
        | ']' :: rest1 => .ok (.arr [], rest1)
        | cs1 => parseArrayItems fuel cs1 []
      else if c = '{' then
        match skipWs rest with
        | '}' :: rest1 => .ok (.obj [], rest1)
        | cs1 => parseObjMembers fuel cs1 []
      else .err "expected value"

/-- Comma-separated elements of a non-empty array, accumulated in reverse. -/
def parseArrayItems (fuel : Nat) (cs : List Char) (acc : List Json) :
    PResult (Json × List Char) :=
  match fuel with
  | 0 => .err "recursion limit exceeded"
  | fuel + 1 =>
    match parseValue fuel cs with
    | .err e => .err e
    | .ok (v, rest) =>
      match skipWs rest with
      | ',' :: rest1 => parseArrayItems fuel (skipWs rest1) (v :: acc)
      | ']' :: rest1 => .ok (.arr (v :: acc).reverse, rest1)
      | _ => .err "expected comma or bracket"

/-- Comma-separated members of a non-empty object: a string key, a colon,
a value. -/
def parseObjMembers (fuel : Nat) (cs : List Char) (acc : List (String × Json)) :
    PResult (Json × List Char) :=
  match fuel with
  | 0 => .err "recursion limit exceeded"
  | fuel + 1 =>
    match cs with
    | '"' :: rest =>
      match parseStringBody (rest.length + 1) [] rest with
      | .err e => .err e
      | .ok (k, rest1) =>
        match skipWs rest1 with
        | ':' :: rest2 =>
          match parseValue fuel (skipWs rest2) with
          | .err e => .err e
          | .ok (v, rest3) =>
            match skipWs rest3 with
            | ',' :: rest4 => parseObjMembers fuel (skipWs rest4) (setField acc k v)
            | '}' :: rest4 => .ok (.obj (setField acc k v), rest4)
            | _ => .err "expected comma or brace"
        | _ => .err "expected colon"
    | _ => .err "key must be a string"

end

/-- `serde_json::from_str::<Value>`: parse one JSON document and reject
trailing non-whitespace characters. -/
def parseJson (s : String) : PResult Json :=
  match parseValue (4 * s.length + 4) (skipWs s.toList) with
  | .err e => .err e
  | .ok (v, rest) =>
    match skipWs rest with
    | [] => .ok v
    | _ => .err "trailing characters"

/-- `StatusCode::is_success` from the `http` crate: the 2xx range. -/
def isSuccess (status : Nat) : Bool := 200 ≤ status && status < 300

/-- `StatusCode::canonical_reason` from the `http` crate: the registered
reason phrase of a status code. -/
def canonicalReason (code : Nat) : Option String :=
  match code with
  | 100 => some "Continue"
  | 101 => some "Switching Protocols"
  | 102 => some "Processing"
  | 200 => some "OK"
  | 201 => some "Created"
  | 202 => some "Accepted"
  | 203 => some "Non Authoritative Information"
  | 204 => some "No Content"
  | 205 => some "Reset Content"
  | 206 => some "Partial Content"
  | 207 => some "Multi-Status"
  | 208 => some "Already Reported"
  | 226 => some "IM Used"
  | 300 => some "Multiple Choices"
  | 301 => some "Moved Permanently"
  | 302 => some "Found"
  | 303 => some "See Other"
  | 304 => some "Not Modified"
  | 305 => some "Use Proxy"
  | 307 => some "Temporary Redirect"
  | 308 => some "Permanent Redirect"
  | 400 => some "Bad Request"
  | 401 => some "Unauthorized"
  | 402 => some "Payment Required"
  | 403 => some "Forbidden"
  | 404 => some "Not Found"
  | 405 => some "Method Not Allowed"
  | 406 => some "Not Acceptable"
  | 407 => some "Proxy Authentication Required"
  | 408 => some "Request Timeout"
  | 409 => some "Conflict"
  | 410 => some "Gone"
  | 411 => some "Length Required"
  | 412 => some "Precondition Failed"
  | 413 => some "Payload Too Large"
  | 414 => some "URI Too Long"
  | 415 => some "Unsupported Media Type"
  | 416 => some "Range Not Satisfiable"
  | 417 => some "Expectation Failed"
  | 418 => some "I\x27m a teapot"
  | 421 => some "Misdirected Request"
  | 422 => some "Unprocessable Entity"
  | 423 => some "Locked"
  | 424 => some "Failed Dependency"
  | 426 => some "Upgrade Required"
  | 428 => some "Precondition Required"
  | 429 => some "Too Many Requests"
  | 431 => some "Request Header Fields Too Large"
  | 451 => some "Unavailable For Legal Reasons"
  | 500 => some "Internal Server Error"
  | 501 => some "Not Implemented"
  | 502 => some "Bad Gateway"
  | 503 => some "Service Unavailable"
  | 504 => some "Gateway Timeout"
  | 505 => some "HTTP Version Not Supported"
  | 506 => some "Variant Also Negotiates"
  | 507 => some "Insufficient Storage"
  | 508 => some "Loop Detected"
  | 510 => some "Not Extended"
  | 511 => some "Network Authentication Required"
  | _ => none

/-- `Display` for `StatusCode`: the numeric value followed by the
canonical reason phrase, which is how `format!("... {}", status)` renders
a status in the handler. -/
def statusDisplay (code : Nat) : String :=
  toString code ++ " " ++ ((canonicalReason code).getD "<unknown status code>")

/-- The `ErrorResponse` struct of the program; it serializes as a JSON
object with a single `error` field. -/
structure ErrorResponse where
  error : String

/-- The fixed system instruction of the handler (the `system_msg` local),
copied verbatim from the source. -/
def system_msg : String :=
  "You are an intelligent Excel assistant AI. The user will describe tasks in natural language, like: \x27Write Total in A1\x27, \x27Set A2 to 500\x27, \x27Highlight B3\x27, or \x27Fill A1 to A5 with names\x27. Your job is to convert this into a list of actions in JSON format like: [\x7b\"cell\": \"A1\", \"value\": \"Total\", \"highlight\": true\x7d, \x7b\"cell\": \"A2\", \"value\": \"500\"\x7d, \x7b\"cell\": \"A3\", \"value\": \"=A1+A2\"\x7d]. Only return the JSON list. No explanation, no markdown. Only pure JSON array."

/-- The `json!` payload built by the handler for the upstream call: the
designated model and exactly two messages, the system instruction followed
by the user prompt. -/
def chatPayload (prompt : String) : Json :=
  .obj
    [("model", .str "llama3-8b-8192"),
     ("messages",
       .arr
         [.obj [("role", .str "system"), ("content", .str system_msg)],
          .obj [("role", .str "user"), ("content", .str prompt)]])]

/-- The upstream endpoint URL used by the handler. -/
def groqURL : String := "https://api.groq.com/openai/v1/chat/completions"

/-- One outbound request as the handler assembles it: URL, bearer token
and JSON body. -/
structure UpstreamCall where
  url : String
  bearer : String
  payload : Json

/-- The result of reading the upstream response body (`response.json()`
and `response.text()` both consume it and can fail while reading). -/
inductive BodyRead where
  | ok (s : String)
  | failed (e : String)

/-- What `client.post(...).send().await` produces, abstracted: a transport
failure carrying an error description, or a response with a status code
and a readable body. -/
inductive UpstreamOutcome where
  | failure (e : String)
  | response (status : Nat) (body : BodyRead)

/-- The handler result: `Ok(Json(value))`, or `Err((status, Json(err)))`. -/
inductive HttpResult where
  | ok (body : Json)
  | err (status : Nat) (resp : ErrorResponse)

/-- The content extraction chain of the handler:
`json_data["choices"][0]["message"]["content"]`. -/
def contentOf (json_data : Json) : Json :=
  (((json_data.key "choices").idx 0).key "message").key "content"

/-- The `chat` handler of the program, embedded as a pure function of the
API key, the request prompt and the outcome of the (at most one) upstream
exchange. The first component of the result is the list of upstream calls
performed: empty when the prompt is rejected, and a singleton otherwise. -/
def chat (api_key : String) (prompt : String) (upstream : UpstreamOutcome) :
    List UpstreamCall × HttpResult :=
  if (rustTrim prompt).isEmpty then
    ([], .err 400 { error := "No prompt provided" })
  else
    ([{ url := groqURL, bearer := api_key, payload := chatPayload prompt }],
      match upstream with
      | .failure e => .err 504 { error := "Groq API request failed: " ++ e }
      | .response status body =>
        if isSuccess status then
          match body with
          | .failed e => .err 500 { error := "Failed to parse Groq API response JSON: " ++ e }
          | .ok raw =>
            match parseJson raw with
            | .err e => .err 500 { error := "Failed to parse Groq API response JSON: " ++ e }
            | .ok json_data =>
              let reply := rustTrim (((contentOf json_data).as_str).getD "")
              match parseJson reply with
              | .ok actions =>
                if actions.is_array then .ok (.obj [("actions", actions)])
                else
                  .err 422
                    { error := "Groq API returned valid JSON but not an array as expected: " ++ reply }
              | .err _ => .err 422 { error := "Groq API returned invalid JSON: " ++ reply }
        else
          let error_text :=
            match body with
            | .ok s => s
            | .failed _ => "Unknown error from Groq API"
          .err status
            { error := "Groq API failed with status " ++ statusDisplay status ++ ": " ++ error_text })

/-- The configuration of the outbound `reqwest` client that matters here:
whether a total request timeout is set. -/
structure ClientConfig where
  timeout : Option Nat

/-- `Client::new()`: the default `reqwest` client configuration, which
sets no request timeout. -/
def Client_new : ClientConfig := { timeout := none }

/-- The `AppState` struct of the program. -/
structure AppState where
  api_key : String
  client : ClientConfig

/-- The startup sequence of `main` as far as requests are concerned:
read `GROQ_API_KEY` from the environment and build the shared state, or
abort the process (the `expect` panic) when the variable is absent. -/
def main_startup (env : String → Option String) : Except String AppState :=
  match env "GROQ_API_KEY" with
  | some k => .ok { api_key := k, client := Client_new }
  | none => .error "Missing GROQ_API_KEY environment variable. Please set it."

/-- End-to-end serving of one `/chat` request: `none` when startup aborted
(the process never listens, so no request is handled at all), otherwise
the handler result under the state built at startup. -/
def serveChat (env : String → Option String) (prompt : String)
    (upstream : UpstreamOutcome) : Option (List UpstreamCall × HttpResult) :=
  match main_startup env with
  | .error _ => none
  | .ok st => some (chat st.api_key prompt upstream)

/-- A JSON value has an element at index 0 exactly when it is a non-empty
array; `value[0]` is `Null` otherwise. -/
def hasElem0 : Json → Bool
  | .arr (_ :: _) => true
  | _ => false

theorem idx_zero_of_not_hasElem0 (j : Json) (h : hasElem0 j = false) :
    j.idx 0 = .null := by
  cases j with
  | arr xs => cases xs with
    | nil => rfl
    | cons x xs => simp [hasElem0] at h
  | _ => rfl

theorem rustTrim_empty : rustTrim "" = "" := rfl

theorem parseJson_empty : parseJson "" = .err "EOF while parsing a value" := rfl

/-- C9 (confirmed): for every request whose prompt is empty or whitespace
after trimming, the handler returns 400 with the error body and performs
no upstream call (the call trace is empty), whatever the upstream would
have answered. -/
theorem chat_empty_prompt_400 (api_key prompt : String) (u : UpstreamOutcome)
    (h : (rustTrim prompt).isEmpty = true) :
    chat api_key prompt u = ([], .err 400 { error := "No prompt provided" }) := by
  simp [chat, h]

/-- Witness for `chat_empty_prompt_400` at a whitespace-only prompt. -/
theorem chat_empty_prompt_400_witness :
    chat "key" "   " (.failure "unused")
      = ([], .err 400 { error := "No prompt provided" }) :=
  chat_empty_prompt_400 "key" "   " (.failure "unused") rfl

/-- C8 (confirmed): every transport failure of the upstream call (the
`Err` arm of `send().await`, covering DNS, connection and timeout errors)
yields 504 Gateway Timeout with an error body describing the failure. -/
theorem chat_transport_failure_504 (api_key prompt e : String)
    (h : (rustTrim prompt).isEmpty = false) :
    (chat api_key prompt (.failure e)).2
      = .err 504 { error := "Groq API request failed: " ++ e } := by
  simp [chat, h]

/-- Witness for `chat_transport_failure_504`. -/
theorem chat_transport_failure_504_witness :
    (chat "key" "hello" (.failure "error sending request")).2
      = .err 504 { error := "Groq API request failed: error sending request" } :=
  chat_transport_failure_504 "key" "hello" "error sending request" rfl

/-- C7 (confirmed): every upstream response with a non-2xx status is
propagated verbatim: the handler returns the same status code, and the
error string is the upstream status (decimal value and reason phrase)
followed by the upstream body text, so it contains both. -/
theorem chat_non2xx_propagates_status (api_key prompt text : String) (status : Nat)
    (hp : (rustTrim prompt).isEmpty = false) (hs : isSuccess status = false) :
    (chat api_key prompt (.response status (.ok text))).2
      = .err status
          { error := "Groq API failed with status " ++ statusDisplay status ++ ": " ++ text } := by
  simp [chat, hp, hs]

/-- Witness for `chat_non2xx_propagates_status`: the 503 example of the
specification, whose error mentions both 503 and the body text. -/
theorem chat_non2xx_propagates_status_witness :
    (chat "key" "hello" (.response 503 (.ok "rate limited"))).2
      = .err 503
          { error := "Groq API failed with status 503 Service Unavailable: rate limited" } :=
  chat_non2xx_propagates_status "key" "hello" "rate limited" 503 rfl rfl

/-- C4 (confirmed): for every prompt that is non-empty after trimming, the
handler issues exactly one upstream call (a singleton trace), and its
payload selects model `llama3-8b-8192` and carries exactly two messages in
order: the fixed system instruction, then a user message whose content is
the caller prompt. -/
theorem chat_single_call_payload (api_key prompt : String) (u : UpstreamOutcome)
    (hp : (rustTrim prompt).isEmpty = false) :
    (chat api_key prompt u).1
      = [{ url := groqURL, bearer := api_key,
           payload := Json.obj
             [("model", Json.str "llama3-8b-8192"),
              ("messages", Json.arr
                [Json.obj [("role", Json.str "system"), ("content", Json.str system_msg)],
                 Json.obj [("role", Json.str "user"), ("content", Json.str prompt)]])] }] := by
  simp [chat, hp, chatPayload]

/-- Witness for `chat_single_call_payload`. -/
theorem chat_single_call_payload_witness :
    (chat "key" "Write Total in A1" (.failure "unused")).1
      = [{ url := groqURL, bearer := "key",
           payload := Json.obj
             [("model", Json.str "llama3-8b-8192"),
              ("messages", Json.arr
                [Json.obj [("role", Json.str "system"), ("content", Json.str system_msg)],
                 Json.obj [("role", Json.str "user"),
                           ("content", Json.str "Write Total in A1")]])] }] :=
  chat_single_call_payload "key" "Write Total in A1" (.failure "unused") rfl

/-- C5 (confirmed): for every upstream 2xx response whose body parses and
whose `choices[0].message.content`, after trimming, parses as a JSON
array, the handler returns 200 with body `(actions, <that array>)`, the
parsed array passed through unchanged. -/
theorem chat_array_content_ok (api_key prompt raw c : String) (status : Nat) (j a : Json)
    (hp : (rustTrim prompt).isEmpty = false)
    (hs : isSuccess status = true)
    (hb : parseJson raw = .ok j)
    (hc : (contentOf j).as_str = some c)
    (ha : parseJson (rustTrim c) = .ok a)
    (harr : a.is_array = true) :
    (chat api_key prompt (.response status (.ok raw))).2
      = .ok (.obj [("actions", a)]) := by
  simp [chat, hp, hs, hb, hc, ha, harr]

/-- Witness for `chat_array_content_ok`: the specification example, with
content `[{"cell":"A1","value":"Total"}]`. -/
theorem chat_array_content_ok_witness :
    (chat "key" "put Total in A1"
        (.response 200
          (.ok "\x7b\"choices\":[\x7b\"message\":\x7b\"content\":\"[\x7b\\\"cell\\\":\\\"A1\\\",\\\"value\\\":\\\"Total\\\"\x7d]\"\x7d\x7d]\x7d"))).2
      = .ok (.obj [("actions",
          .arr [.obj [("cell", .str "A1"), ("value", .str "Total")]])]) :=
  chat_array_content_ok "key" "put Total in A1"
    "\x7b\"choices\":[\x7b\"message\":\x7b\"content\":\"[\x7b\\\"cell\\\":\\\"A1\\\",\\\"value\\\":\\\"Total\\\"\x7d]\"\x7d\x7d]\x7d"
    "[\x7b\"cell\":\"A1\",\"value\":\"Total\"\x7d]" 200
    (Json.obj [("choices", Json.arr [Json.obj [("message", Json.obj [("content", Json.str "[\x7b\"cell\":\"A1\",\"value\":\"Total\"\x7d]")])]])])
    (.arr [.obj [("cell", .str "A1"), ("value", .str "Total")]])
    rfl rfl rfl rfl rfl rfl

/-- C6 (confirmed): for every upstream 2xx response with a string content,
if the trimmed content parses as JSON that is not an array the handler
answers 422 with an error mentioning that the result is not an array, and
if it does not parse as JSON at all the handler answers 422 with an error
mentioning invalid JSON; in both cases the result is an error, never a
200 reply. -/
theorem chat_nonarray_or_invalid_422 (api_key prompt raw c : String) (status : Nat)
    (j : Json)
    (hp : (rustTrim prompt).isEmpty = false)
    (hs : isSuccess status = true)
    (hb : parseJson raw = .ok j)
    (hc : (contentOf j).as_str = some c) :
    (∀ v : Json, parseJson (rustTrim c) = .ok v → v.is_array = false →
        (chat api_key prompt (.response status (.ok raw))).2
          = .err 422
              { error := "Groq API returned valid JSON but not an array as expected: "
                  ++ rustTrim c })
    ∧ (∀ e : String, parseJson (rustTrim c) = .err e →
        (chat api_key prompt (.response status (.ok raw))).2
          = .err 422 { error := "Groq API returned invalid JSON: " ++ rustTrim c }) := by
  constructor
  · intro v hv hva
    simp [chat, hp, hs, hb, hc, hv, hva]
  · intro e he
    simp [chat, hp, hs, hb, hc, he]

/-- Witness for `chat_nonarray_or_invalid_422`: content `{}` (valid JSON,
not an array) gives the not-an-array 422; content `not json` gives the
invalid-JSON 422. -/
theorem chat_nonarray_or_invalid_422_witness :
    (chat "key" "do it"
        (.response 200
          (.ok "\x7b\"choices\":[\x7b\"message\":\x7b\"content\":\"\x7b\x7d\"\x7d\x7d]\x7d"))).2
      = .err 422
          { error := "Groq API returned valid JSON but not an array as expected: \x7b\x7d" }
    ∧ (chat "key" "do it"
        (.response 200
          (.ok "\x7b\"choices\":[\x7b\"message\":\x7b\"content\":\"not json\"\x7d\x7d]\x7d"))).2
      = .err 422 { error := "Groq API returned invalid JSON: not json" } :=
  ⟨(chat_nonarray_or_invalid_422 "key" "do it"
      "\x7b\"choices\":[\x7b\"message\":\x7b\"content\":\"\x7b\x7d\"\x7d\x7d]\x7d"
      "\x7b\x7d" 200
      (Json.obj [("choices", Json.arr [Json.obj [("message", Json.obj [("content", Json.str "\x7b\x7d")])]])])
      rfl rfl rfl rfl).1 (.obj []) rfl rfl,
   (chat_nonarray_or_invalid_422 "key" "do it"
      "\x7b\"choices\":[\x7b\"message\":\x7b\"content\":\"not json\"\x7d\x7d]\x7d"
      "not json" 200
      (Json.obj [("choices", Json.arr [Json.obj [("message", Json.obj [("content", Json.str "not json")])]])])
      rfl rfl rfl rfl).2 "expected ident" rfl⟩

/-- C10 (confirmed): for every upstream 2xx response whose body is valid
JSON but where `choices[0].message.content` is missing or not a JSON
string (`as_str` is `None`), the handler substitutes the empty string,
whose trim fails to parse as JSON, and therefore returns 422 with the
invalid-JSON error and the empty reply appended; the embedding is total,
so no input of this shape panics or reaches a 200 reply. -/
theorem chat_nonstring_content_422 (api_key prompt raw : String) (status : Nat) (j : Json)
    (hp : (rustTrim prompt).isEmpty = false)
    (hs : isSuccess status = true)
    (hb : parseJson raw = .ok j)
    (hc : (contentOf j).as_str = none) :
    (chat api_key prompt (.response status (.ok raw))).2
      = .err 422 { error := "Groq API returned invalid JSON: " } := by
  simp [chat, hp, hs, hb, hc, rustTrim_empty, parseJson_empty]

/-- Witness for `chat_nonstring_content_422`: a numeric content. -/
theorem chat_nonstring_content_422_witness :
    (chat "key" "sum it"
        (.response 200
          (.ok "\x7b\"choices\":[\x7b\"message\":\x7b\"content\":42\x7d\x7d]\x7d"))).2
      = .err 422 { error := "Groq API returned invalid JSON: " } :=
  chat_nonstring_content_422 "key" "sum it"
    "\x7b\"choices\":[\x7b\"message\":\x7b\"content\":42\x7d\x7d]\x7d" 200
    (Json.obj [("choices", Json.arr [Json.obj [("message", Json.obj [("content", Json.num "42")])]])])
    rfl rfl rfl rfl

/-- C1 counterexample: on the 2xx body `{"choices":[]}`, which is valid
JSON with no element at `choices[0]`, the handler returns 422 with the
invalid-JSON error, not 500 with a no-choices error. -/
theorem chat_no_choice0_cex :
    (chat "key" "hi" (.response 200 (.ok "\x7b\"choices\":[]\x7d"))).2
        = HttpResult.err 422 { error := "Groq API returned invalid JSON: " }
    ∧ ¬ (chat "key" "hi" (.response 200 (.ok "\x7b\"choices\":[]\x7d"))).2
        = HttpResult.err 500 { error := "no choices found" } := by
  refine ⟨rfl, fun h => ?_⟩
  have h2 : HttpResult.err 422 { error := "Groq API returned invalid JSON: " }
      = HttpResult.err 500 { error := "no choices found" } :=
    (rfl : (chat "key" "hi" (.response 200 (.ok "\x7b\"choices\":[]\x7d"))).2
        = HttpResult.err 422 { error := "Groq API returned invalid JSON: " }).symm.trans h
  injection h2 with h3 h4
  exact absurd h3 (by decide)

/-- C1 (corrected): for every upstream 2xx response whose body is valid
JSON but has no element at `choices[0]` (the `choices` field is not a
non-empty array), the indexing chain yields `Null`, `as_str` yields
`None`, the empty string is substituted, and the handler returns 422 with
the invalid-JSON error — not 500 and not any other status. -/
theorem chat_no_choice0_422 (api_key prompt raw : String) (status : Nat) (j : Json)
    (hp : (rustTrim prompt).isEmpty = false)
    (hs : isSuccess status = true)
    (hb : parseJson raw = .ok j)
    (hchoices : hasElem0 (j.key "choices") = false) :
    (chat api_key prompt (.response status (.ok raw))).2
      = .err 422 { error := "Groq API returned invalid JSON: " } := by
  have h0 : contentOf j = .null := by
    unfold contentOf
    rw [idx_zero_of_not_hasElem0 _ hchoices]
    rfl
  simp [chat, hp, hs, hb, h0, Json.as_str, rustTrim_empty, parseJson_empty]

/-- Witness for `chat_no_choice0_422`: a body whose `choices` field is a
string, so there is no element at `choices[0]`. -/
theorem chat_no_choice0_422_witness :
    (chat "key" "add 1" (.response 200 (.ok "\x7b\"choices\":\"nope\"\x7d"))).2
      = .err 422 { error := "Groq API returned invalid JSON: " } :=
  chat_no_choice0_422 "key" "add 1" "\x7b\"choices\":\"nope\"\x7d" 200
    (Json.obj [("choices", Json.str "nope")]) rfl rfl rfl rfl

/-- C2 counterexample: with `GROQ_API_KEY` absent from the environment,
startup aborts (the `expect` panic in `main`), so a `/chat` request is
never handled at all — in particular no 500 response is produced by the
request-handling path, which performs no credential check of its own. -/
theorem serveChat_missing_key_cex :
    serveChat (fun _ => none) "hello" (.failure "connection refused") = none := rfl

/-- C2 (corrected): when the API credential is not configured, the
process fails at startup with the `expect` message; the server never
starts, so no `/chat` request is handled (and a fortiori no upstream call
is made). The missing credential is detected at startup, not by the
request-handling path. -/
theorem missing_key_fatal_startup (env : String → Option String) (prompt : String)
    (u : UpstreamOutcome) (h : env "GROQ_API_KEY" = none) :
    main_startup env
        = .error "Missing GROQ_API_KEY environment variable. Please set it."
    ∧ serveChat env prompt u = none := by
  constructor
  · simp [main_startup, h]
  · simp [serveChat, main_startup, h]

/-- Witness for `missing_key_fatal_startup` at the empty environment. -/
theorem missing_key_fatal_startup_witness :
    main_startup (fun _ => none)
        = .error "Missing GROQ_API_KEY environment variable. Please set it."
    ∧ serveChat (fun _ => none) "format cells" (.failure "unused") = none :=
  missing_key_fatal_startup (fun _ => none) "format cells" (.failure "unused") rfl

/-- C3 counterexample: the outbound client is built with `Client::new()`,
whose default configuration sets no request timeout at all — in
particular not a 30-second (nor any comparable) bound. -/
theorem client_no_timeout_cex :
    Client_new.timeout = none ∧ ¬ Client_new.timeout = some 30 :=
  ⟨rfl, by simp [Client_new]⟩

/-- C3 (corrected): no timeout is configured on the outbound client, so
no fixed bound on the upstream wait exists in the program; what does hold
is that whenever the transport layer itself reports a failure (including
any timeout it raises), the handler maps it to 504 Gateway Timeout. -/
theorem client_unbounded_transport_504 (api_key prompt e : String)
    (hp : (rustTrim prompt).isEmpty = false) :
    Client_new.timeout = none
    ∧ (chat api_key prompt (.failure e)).2
        = .err 504 { error := "Groq API request failed: " ++ e } := by
  constructor
  · rfl
  · simp [chat, hp]

/-- Witness for `client_unbounded_transport_504`. -/
theorem client_unbounded_transport_504_witness :
    Client_new.timeout = none
    ∧ (chat "key" "hi there" (.failure "operation timed out")).2
        = .err 504 { error := "Groq API request failed: operation timed out" } :=
  client_unbounded_transport_504 "key" "hi there" "operation timed out" rfl

end GroqRelay
